import Mathlib

/-!
Verification of the MyNoteTaking note service (`src/routes/note.py`).

The route handlers are embedded as pure Lean functions over an explicit
store.  JSON request bodies are association lists of string keys and
`JVal` values; Python's `datetime.strptime` is embedded following the
regex patterns CPython's `_strptime` module uses for the directives
`%H %M %S %f %Y %m %d` (ordered alternation with backtracking, anchored
prefix match, then an "unconverted data remains" check, then the
`datetime`/`time` constructor's range checks).

The persistence layer (`src/models/note.py` and the database) is not part
of the core under verification; the spec declares it an external
pass-through collaborator, so commits are modelled as always succeeding
and queries as plain list operations.
-/

/-- A JSON value as it arrives in a Flask `request.json` body.  Strings,
null, numbers and booleans are enough to exercise every branch of the
handlers (any non-string, non-null value trips the same `isinstance`
checks). -/
inductive JVal where
  | jnull
  | jstr (s : String)
  | jint (n : Int)
  | jbool (b : Bool)
deriving DecidableEq, Repr

/-- Python truthiness of a `JVal` (`if data['event_date']:` etc.):
`None`, `""`, `0` and `False` are falsy. -/
def JVal.truthy : JVal → Bool
  | .jnull => false
  | .jstr s => !s.isEmpty
  | .jint n => n != 0
  | .jbool b => b

/-- A request body: a JSON object, i.e. a finite map from keys to values,
represented as an association list (Python dicts have no duplicate keys). -/
abbrev Body := List (String × JVal)

/-- `k in data` / `data[k]` : first binding of the key, if any. -/
def lookupKey (data : Body) (k : String) : Option JVal :=
  (data.find? (fun p => p.1 == k)).map (fun p => p.2)

/-- Python's `data.get(k, d)`: the stored value when the key is present
(even when that value is `None`), the default otherwise. -/
def getOr (data : Body) (k : String) (d : JVal) : JVal :=
  (lookupKey data k).getD d

/-- A calendar date as produced by `datetime.strptime(s, "%Y-%m-%d").date()`. -/
structure PyDate where
  year : Nat
  month : Nat
  day : Nat
deriving DecidableEq, Repr

/-- A time of day as produced by `datetime.strptime(s, fmt).time()`. -/
structure PyTime where
  hour : Nat
  minute : Nat
  second : Nat
  microsecond : Nat
deriving DecidableEq, Repr

/-- Numeric value of a decimal digit character. -/
def digitVal (c : Char) : Nat := c.toNat - 48

/-- CPython `_strptime` regex for `%H`: `2[0-3]|[0-1]\d|\d`.  Candidate
matches in the regex engine's backtracking order, each with the unconsumed
remainder. -/
def matchH (s : List Char) : List (Nat × List Char) :=
  (match s with
   | '2' :: c :: rest =>
       if '0' ≤ c ∧ c ≤ '3' then [(20 + digitVal c, rest)] else []
   | _ => []) ++
  (match s with
   | c1 :: c2 :: rest =>
       if ('0' ≤ c1 ∧ c1 ≤ '1') ∧ c2.isDigit then
         [(digitVal c1 * 10 + digitVal c2, rest)]
       else []
   | _ => []) ++
  (match s with
   | c :: rest => if c.isDigit then [(digitVal c, rest)] else []
   | _ => [])

/-- CPython `_strptime` regex for `%M`: `[0-5]\d|\d`. -/
def matchM (s : List Char) : List (Nat × List Char) :=
  (match s with
   | c1 :: c2 :: rest =>
       if ('0' ≤ c1 ∧ c1 ≤ '5') ∧ c2.isDigit then
         [(digitVal c1 * 10 + digitVal c2, rest)]
       else []
   | _ => []) ++
  (match s with
   | c :: rest => if c.isDigit then [(digitVal c, rest)] else []
   | _ => [])

/-- CPython `_strptime` regex for `%S`: `6[0-1]|[0-5]\d|\d` (the regex
admits leap seconds 60 and 61; the `time` constructor rejects them later). -/
def matchS (s : List Char) : List (Nat × List Char) :=
  (match s with
   | '6' :: c :: rest =>
       if '0' ≤ c ∧ c ≤ '1' then [(60 + digitVal c, rest)] else []
   | _ => []) ++
  (match s with
   | c1 :: c2 :: rest =>
       if ('0' ≤ c1 ∧ c1 ≤ '5') ∧ c2.isDigit then
         [(digitVal c1 * 10 + digitVal c2, rest)]
       else []
   | _ => []) ++
  (match s with
   | c :: rest => if c.isDigit then [(digitVal c, rest)] else []
   | _ => [])

/-- Number denoted by a list of decimal digit characters. -/
def digitsToNat (ds : List Char) : Nat :=
  ds.foldl (fun acc c => acc * 10 + digitVal c) 0

/-- CPython `_strptime` regex for `%f`: `[0-9]{1,6}`, greedy with
backtracking, so candidates run from the longest available digit run
(capped at 6) down to a single digit.  `_strptime` right-pads the matched
digits with zeros to six places, yielding microseconds. -/
def matchF (s : List Char) : List (Nat × List Char) :=
  let ds := (s.takeWhile Char.isDigit).take 6
  (List.range ds.length).map (fun i =>
    let len := ds.length - i
    (digitsToNat (ds.take len) * 10 ^ (6 - len), s.drop len))

/-- A literal character in the format string (`:` or `.`). -/
def matchLit (c : Char) (s : List Char) : List (List Char) :=
  match s with
  | c1 :: rest => if c1 = c then [rest] else []
  | _ => []

/-- All prefix matches of the `%H:%M:%S.%f` pattern, in the regex engine's
backtracking order; the head is the match `re.match` reports. -/
def parsesHMSf (s : List Char) : List (PyTime × List Char) :=
  (matchH s).flatMap (fun hr =>
  (matchLit ':' hr.2).flatMap (fun r2 =>
  (matchM r2).flatMap (fun mr =>
  (matchLit ':' mr.2).flatMap (fun r4 =>
  (matchS r4).flatMap (fun sr =>
  (matchLit '.' sr.2).flatMap (fun r6 =>
  (matchF r6).map (fun fr =>
    (PyTime.mk hr.1 mr.1 sr.1 fr.1, fr.2))))))))

/-- All prefix matches of the `%H:%M:%S` pattern, in backtracking order. -/
def parsesHMS (s : List Char) : List (PyTime × List Char) :=
  (matchH s).flatMap (fun hr =>
  (matchLit ':' hr.2).flatMap (fun r2 =>
  (matchM r2).flatMap (fun mr =>
  (matchLit ':' mr.2).flatMap (fun r4 =>
  (matchS r4).map (fun sr =>
    (PyTime.mk hr.1 mr.1 sr.1 0, sr.2))))))

/-- All prefix matches of the `%H:%M` pattern, in backtracking order. -/
def parsesHM (s : List Char) : List (PyTime × List Char) :=
  (matchH s).flatMap (fun hr =>
  (matchLit ':' hr.2).flatMap (fun r2 =>
  (matchM r2).map (fun mr =>
    (PyTime.mk hr.1 mr.1 0 0, mr.2))))

/-- Outcome of `datetime.strptime(s, fmt).time()` for one format:
`re.match` takes the first backtracking match; `_strptime` then raises
`ValueError` if input remains unconsumed, and the `time` constructor
raises `ValueError` on a leap second (the regex already bounds hour,
minute and microsecond).  Both `ValueError`s make the format fail. -/
def strptimeOf (parses : List (PyTime × List Char)) : Option PyTime :=
  match parses.head? with
  | some (t, rest) => if rest = [] ∧ t.second ≤ 59 then some t else none
  | none => none

/-- The three time formats `parse_time_string` tries, in source order. -/
inductive TimeFormat where
  | hmsf
  | hms
  | hm
deriving DecidableEq, Repr

/-- `datetime.strptime(s, fmt).time()` for one of the three formats. -/
def strptimeFmt (fmt : TimeFormat) (s : List Char) : Option PyTime :=
  match fmt with
  | .hmsf => strptimeOf (parsesHMSf s)
  | .hms => strptimeOf (parsesHMS s)
  | .hm => strptimeOf (parsesHM s)

/-- The `time_formats` list of `parse_time_string`, in order of preference. -/
def time_formats : List TimeFormat := [.hmsf, .hms, .hm]

/-- The `for fmt in time_formats: try ... except ValueError: continue`
loop: first format that succeeds wins. -/
def firstSuccess : List (Option PyTime) → Option PyTime
  | [] => none
  | some t :: _ => some t
  | none :: rest => firstSuccess rest

/-- Time parse of a (non-empty) string input: the format-fallback loop of
`parse_time_string`. -/
def strptimeTime (s : String) : Option PyTime :=
  firstSuccess (time_formats.map (fun fmt => strptimeFmt fmt s.data))

/-- A Python exception that escapes the handlers' `except ValueError`
guards and hits the outer `except Exception` (e.g. the `TypeError` that
`strptime` raises on a non-string argument). -/
inductive PyEx where
  | typeError
deriving DecidableEq, Repr

deriving instance DecidableEq for Except

/-- `parse_time_string` (src/routes/note.py, lines 14-46): falsy input
returns `None`; a string runs the format loop and returns the first match
or `None` (with a log warning, not modelled); a truthy non-string reaches
`strptime` which raises `TypeError`, uncaught by the loop's
`except ValueError`. -/
def parse_time_string (v : JVal) : Except PyEx (Option PyTime) :=
  if v.truthy then
    match v with
    | .jstr s => .ok (strptimeTime s)
    | _ => .error .typeError
  else
    .ok none

/-- CPython `_strptime` regex for `%Y`: exactly four digits `\d\d\d\d`. -/
def matchY (s : List Char) : List (Nat × List Char) :=
  match s with
  | c1 :: c2 :: c3 :: c4 :: rest =>
      if c1.isDigit ∧ c2.isDigit ∧ c3.isDigit ∧ c4.isDigit then
        [(digitsToNat [c1, c2, c3, c4], rest)]
      else []
  | _ => []

/-- CPython `_strptime` regex for `%m`: `1[0-2]|0[1-9]|[1-9]`. -/
def matchMon (s : List Char) : List (Nat × List Char) :=
  (match s with
   | '1' :: c :: rest =>
       if '0' ≤ c ∧ c ≤ '2' then [(10 + digitVal c, rest)] else []
   | _ => []) ++
  (match s with
   | '0' :: c :: rest =>
       if '1' ≤ c ∧ c ≤ '9' then [(digitVal c, rest)] else []
   | _ => []) ++
  (match s with
   | c :: rest =>
       if '1' ≤ c ∧ c ≤ '9' then [(digitVal c, rest)] else []
   | _ => [])

/-- CPython `_strptime` regex for `%d`: `3[01]|[1-2]\d|0[1-9]|[1-9]`. -/
def matchDay (s : List Char) : List (Nat × List Char) :=
  (match s with
   | '3' :: c :: rest =>
       if '0' ≤ c ∧ c ≤ '1' then [(30 + digitVal c, rest)] else []
   | _ => []) ++
  (match s with
   | c1 :: c2 :: rest =>
       if ('1' ≤ c1 ∧ c1 ≤ '2') ∧ c2.isDigit then
         [(digitVal c1 * 10 + digitVal c2, rest)]
       else []
   | _ => []) ++
  (match s with
   | '0' :: c :: rest =>
       if '1' ≤ c ∧ c ≤ '9' then [(digitVal c, rest)] else []
   | _ => []) ++
  (match s with
   | c :: rest =>
       if '1' ≤ c ∧ c ≤ '9' then [(digitVal c, rest)] else []
   | _ => [])

/-- All prefix matches of the `%Y-%m-%d` pattern, in backtracking order. -/
def parsesDate (s : List Char) : List (PyDate × List Char) :=
  (matchY s).flatMap (fun yr =>
  (matchLit '-' yr.2).flatMap (fun r2 =>
  (matchMon r2).flatMap (fun mr =>
  (matchLit '-' mr.2).flatMap (fun r4 =>
  (matchDay r4).map (fun dr =>
    (PyDate.mk yr.1 mr.1 dr.1, dr.2))))))

/-- Gregorian leap-year rule, as in Python's `datetime` module. -/
def isLeap (y : Nat) : Bool :=
  (y % 4 = 0 ∧ y % 100 ≠ 0) ∨ y % 400 = 0

/-- Number of days in a month, as validated by the `datetime` constructor. -/
def daysInMonth (y m : Nat) : Nat :=
  if m = 2 then (if isLeap y then 29 else 28)
  else if m = 4 ∨ m = 6 ∨ m = 9 ∨ m = 11 then 30
  else 31

/-- `datetime.strptime(s, "%Y-%m-%d").date()`: regex match, the
unconverted-data check, then the `datetime` constructor's range checks
(year ≥ 1, day within the month; month and day lower bounds are already
enforced by the regex).  Any `ValueError` makes the parse fail. -/
def strptimeDate (s : String) : Option PyDate :=
  match (parsesDate s.data).head? with
  | some (d, rest) =>
      if rest = [] ∧ 1 ≤ d.year ∧ d.day ≤ daysInMonth d.year d.month then
        some d
      else none
  | none => none

/-- A persisted note row.  `title` and `content` hold whatever JSON value
the handler assigned (the routes never type-check them), `location` and
`tags` are validated to be text or null, and the event fields hold parsed
date/time values.  Timestamps are abstract clock readings.
Modelled from the spec: the column set of the `Note` model
(src/models/note.py is not part of the core source), per the spec's data
model section. -/
structure Note where
  id : Nat
  title : JVal
  content : JVal
  location : Option String
  tags : Option String
  event_date : Option PyDate
  event_time : Option PyTime
  created_at : Nat
  updated_at : Nat
deriving DecidableEq, Repr

/-- The persistence store: the notes table plus the next auto-increment
id.  Modelled from the spec: the persistence engine is an external
collaborator assumed to provide plain create/read/update/delete, so a
commit always succeeds. -/
structure Store where
  notes : List Note
  nextId : Nat
deriving DecidableEq, Repr

/-- `Note.query.get(note_id)`: the row with the given primary key. -/
def findNote (st : Store) (note_id : Nat) : Option Note :=
  st.notes.find? (fun n => n.id == note_id)

/-- Committing an updated row: the row with the same id is replaced in
place. -/
def replaceNote (st : Store) (n : Note) : Store :=
  { st with notes := st.notes.map (fun m => if m.id = n.id then n else m) }

/-- Outcome of validating one optional string field (`location`/`tags`)
against the request body: key absent, key present with an acceptable
value, or a 400 validation error. -/
inductive FieldRes where
  | unchanged
  | set (v : Option String)
  | err (msg : String)
deriving DecidableEq, Repr

/-- The shared `if key in data: ...` validation block for `location` and
`tags` in `create_note` and `update_note`: null passes through and clears,
a string of at most 200 characters is accepted, anything else is a 400
(`isinstance` check first, length check second). -/
def applyStrField (data : Body) (key fieldName : String) : FieldRes :=
  match lookupKey data key with
  | none => .unchanged
  | some .jnull => .set none
  | some (.jstr s) =>
      if s.length > 200 then .err (fieldName ++ " must not exceed 200 characters")
      else .set (some s)
  | some _ => .err (fieldName ++ " must be a string")

/-- Apply a field validation outcome to the field's current value. -/
def FieldRes.apply : FieldRes → Option String → Option String
  | .unchanged, v => v
  | .set w, _ => w
  | .err _, v => v

/-- HTTP-level outcome of a handler, paired elsewhere with the resulting
store (unchanged unless the handler committed). -/
inductive HRes where
  | created (n : Note)
  | okNote (n : Note)
  | noContent
  | notFound
  | badRequest (msg : String)
  | serverError
deriving DecidableEq, Repr

/-- The `event_date` block of `update_note`: key absent keeps the prior
value; a falsy value clears the field; a truthy string is parsed, keeping
the prior value when the parse fails (`except ValueError: pass`); a truthy
non-string makes `strptime` raise `TypeError`, which escapes to the outer
handler. -/
def eventDateUpdate (data : Body) (old : Option PyDate) : Except PyEx (Option PyDate) :=
  match lookupKey data "event_date" with
  | none => .ok old
  | some v =>
    if v.truthy then
      match v with
      | .jstr s =>
          match strptimeDate s with
          | some d => .ok (some d)
          | none => .ok old
      | _ => .error .typeError
    else .ok none

/-- The `event_time` block of `update_note`: key absent keeps the prior
value; a falsy value clears the field; otherwise `parse_time_string` runs
and its result is assigned only when it is a value (`if parsed_time:`),
so an unparseable string keeps the prior value. -/
def eventTimeUpdate (data : Body) (old : Option PyTime) : Except PyEx (Option PyTime) :=
  match lookupKey data "event_time" with
  | none => .ok old
  | some v =>
    if v.truthy then
      match parse_time_string v with
      | .error e => .error e
      | .ok (some t) => .ok (some t)
      | .ok none => .ok old
    else .ok none

/-- The `event_date` block of `create_note`
(`if 'event_date' in data and data['event_date']:`): only a truthy value
is parsed; a parse failure leaves the field unset; a truthy non-string
raises `TypeError`. -/
def eventDateCreate (data : Body) : Except PyEx (Option PyDate) :=
  match lookupKey data "event_date" with
  | none => .ok none
  | some v =>
    if v.truthy then
      match v with
      | .jstr s => .ok (strptimeDate s)
      | _ => .error .typeError
    else .ok none

/-- The `event_time` block of `create_note`. -/
def eventTimeCreate (data : Body) : Except PyEx (Option PyTime) :=
  match lookupKey data "event_time" with
  | none => .ok none
  | some v =>
    if v.truthy then
      match parse_time_string v with
      | .error e => .error e
      | .ok t => .ok t
    else .ok none

/-- `create_note` (src/routes/note.py, lines 53-95).  Returns the HTTP
outcome and the resulting store; the store is unchanged on every error
path (an early `return` never commits, and the outer exception handler
rolls the session back). -/
def create_note (data : Body) (st : Store) (now : Nat) : HRes × Store :=
  if data.isEmpty ∨ (lookupKey data "title").isNone ∨ (lookupKey data "content").isNone then
    (.badRequest "Title and content are required", st)
  else
    match applyStrField data "location" "Location" with
    | .err m => (.badRequest m, st)
    | locRes =>
      match applyStrField data "tags" "Tags" with
      | .err m => (.badRequest m, st)
      | tagRes =>
        match eventDateCreate data with
        | .error _ => (.serverError, st)
        | .ok ed =>
          match eventTimeCreate data with
          | .error _ => (.serverError, st)
          | .ok et =>
            let note : Note :=
              { id := st.nextId,
                title := getOr data "title" .jnull,
                content := getOr data "content" .jnull,
                location := locRes.apply none,
                tags := tagRes.apply none,
                event_date := ed,
                event_time := et,
                created_at := now,
                updated_at := now }
            (.created note, { notes := st.notes ++ [note], nextId := st.nextId + 1 })

/-- `update_note` (src/routes/note.py, lines 100-149).  404 when the id is
unknown, 400 on an empty body, then title/content are taken with
`data.get(key, current)`, the optional string fields are validated (an
early error return leaves the store untouched because nothing was
committed), the event fields are updated best-effort, and the commit
replaces the row.  `updated_at := now` is modelled from the spec: the
timestamp column refreshes on every successful mutation. -/
def update_note (note_id : Nat) (data : Body) (st : Store) (now : Nat) : HRes × Store :=
  match findNote st note_id with
  | none => (.notFound, st)
  | some note =>
    if data.isEmpty then (.badRequest "No data provided", st)
    else
      match applyStrField data "location" "Location" with
      | .err m => (.badRequest m, st)
      | locRes =>
        match applyStrField data "tags" "Tags" with
        | .err m => (.badRequest m, st)
        | tagRes =>
          match eventDateUpdate data note.event_date with
          | .error _ => (.serverError, st)
          | .ok ed =>
            match eventTimeUpdate data note.event_time with
            | .error _ => (.serverError, st)
            | .ok et =>
              let n : Note :=
                { note with
                  title := getOr data "title" note.title,
                  content := getOr data "content" note.content,
                  location := locRes.apply note.location,
                  tags := tagRes.apply note.tags,
                  event_date := ed,
                  event_time := et,
                  updated_at := now }
              (.okNote n, replaceNote st n)

/-- `delete_note` (src/routes/note.py, lines 151-161): 404 when the id is
unknown, otherwise the row is deleted and 204 returned. -/
def delete_note (note_id : Nat) (st : Store) : HRes × Store :=
  match findNote st note_id with
  | none => (.notFound, st)
  | some _ =>
      (.noContent, { st with notes := st.notes.eraseP (fun n => n.id == note_id) })

/-- Substring containment on lists of characters. -/
def listHasSub (need : List Char) : List Char → Bool
  | [] => need.isEmpty
  | c :: t => need.isPrefixOf (c :: t) || listHasSub need t

/-- The store's `column.contains(q)` predicate on a stored value.
Modelled from the spec: the persistence engine's text comparison, a plain
substring test on textual values (non-text values do not match). -/
def jvalContains (v : JVal) (q : String) : Bool :=
  match v with
  | .jstr s => listHasSub q.data s.data
  | _ => false

/-- The search filter: title or content contains the query. -/
def matchesQuery (q : String) (n : Note) : Bool :=
  jvalContains n.title q || jvalContains n.content q

/-- Insert a note into a list kept in descending `updated_at` order. -/
def insertDesc (n : Note) : List Note → List Note
  | [] => [n]
  | m :: ms =>
      if m.updated_at ≤ n.updated_at then n :: m :: ms else m :: insertDesc n ms

/-- Sort notes by `updated_at` descending (insertion sort).
Modelled from the spec: the store's `order_by(updated_at.desc())`. -/
def sortDesc : List Note → List Note
  | [] => []
  | n :: ns => insertDesc n (sortDesc ns)

/-- `search_notes` (src/routes/note.py, lines 163-174): an empty `q`
short-circuits to an empty list; otherwise the store returns the notes
whose title or content contains the query, ordered by `updated_at`
descending. -/
def search_notes (q : String) (st : Store) : List Note :=
  if q = "" then []
  else sortDesc (st.notes.filter (matchesQuery q))

/-- The note an accepted update commits: title/content via
`data.get(key, current)`, the optional string fields via their validation
outcome, the event fields via their best-effort results. -/
def updatedNote (note : Note) (data : Body) (now : Nat)
    (ed : Option PyDate) (et : Option PyTime) : Note :=
  { note with
    title := getOr data "title" note.title,
    content := getOr data "content" note.content,
    location := (applyStrField data "location" "Location").apply note.location,
    tags := (applyStrField data "tags" "Tags").apply note.tags,
    event_date := ed,
    event_time := et,
    updated_at := now }

/-- The note an accepted create commits: title/content straight from the
body, the optional string fields via their validation outcome (over an
initially unset field), the event fields via their best-effort results. -/
def createdNote (data : Body) (st : Store) (now : Nat)
    (ed : Option PyDate) (et : Option PyTime) : Note :=
  { id := st.nextId,
    title := getOr data "title" .jnull,
    content := getOr data "content" .jnull,
    location := (applyStrField data "location" "Location").apply none,
    tags := (applyStrField data "tags" "Tags").apply none,
    event_date := ed,
    event_time := et,
    created_at := now,
    updated_at := now }

/-- A sample persisted note, used to instantiate universally quantified
theorems at a concrete input. -/
def sampleNote : Note :=
  { id := 1, title := JVal.jstr "hello", content := JVal.jstr "world",
    location := some "home", tags := some "misc",
    event_date := some ⟨2024, 1, 1⟩, event_time := some ⟨9, 0, 0, 0⟩,
    created_at := 0, updated_at := 3 }

/-- A second sample note with a later `updated_at`. -/
def sampleNote2 : Note :=
  { id := 2, title := JVal.jstr "alpha hello", content := JVal.jstr "gamma",
    location := none, tags := none, event_date := none, event_time := none,
    created_at := 1, updated_at := 7 }

/-- A sample store holding the two sample notes. -/
def sampleStore : Store := { notes := [sampleNote, sampleNote2], nextId := 3 }

theorem lookupKey_ne_empty (data : Body) (k : String) (v : JVal)
    (h : lookupKey data k = some v) : data.isEmpty = false := by
  cases data with
  | nil => simp [lookupKey] at h
  | cons a t => rfl

theorem applyStrField_err_of_bad (data : Body) (key fieldName : String) (v : JVal)
    (hv : lookupKey data key = some v) (hnull : v ≠ .jnull)
    (hbad : ∀ s, v = .jstr s → 200 < s.length) :
    ∃ m, applyStrField data key fieldName = .err m := by
  cases v with
  | jnull => exact absurd rfl hnull
  | jstr s =>
      have hlen := hbad s rfl
      exact ⟨fieldName ++ " must not exceed 200 characters", by simp [applyStrField, hv, hlen]⟩
  | jint n => exact ⟨fieldName ++ " must be a string", by simp [applyStrField, hv]⟩
  | jbool b => exact ⟨fieldName ++ " must be a string", by simp [applyStrField, hv]⟩

theorem update_note_not_found (note_id : Nat) (data : Body) (st : Store) (now : Nat)
    (h : findNote st note_id = none) :
    update_note note_id data st now = (.notFound, st) := by
  unfold update_note
  rw [h]

theorem update_note_empty_body (note_id : Nat) (st : Store) (now : Nat) (note : Note)
    (h : findNote st note_id = some note) :
    update_note note_id [] st now = (.badRequest "No data provided", st) := by
  simp [update_note, h]

theorem update_note_badReq_loc (note_id : Nat) (data : Body) (st : Store) (now : Nat)
    (note : Note) (m : String)
    (hfind : findNote st note_id = some note) (hne : data.isEmpty = false)
    (hloc : applyStrField data "location" "Location" = .err m) :
    update_note note_id data st now = (.badRequest m, st) := by
  simp [update_note, hfind, hne, hloc]

theorem update_note_badReq_tags (note_id : Nat) (data : Body) (st : Store) (now : Nat)
    (note : Note) (m : String)
    (hfind : findNote st note_id = some note) (hne : data.isEmpty = false)
    (hloc : ∀ m', applyStrField data "location" "Location" ≠ .err m')
    (htag : applyStrField data "tags" "Tags" = .err m) :
    update_note note_id data st now = (.badRequest m, st) := by
  cases hl : applyStrField data "location" "Location" with
  | err m' => exact absurd hl (hloc m')
  | unchanged => simp [update_note, hfind, hne, hl, htag]
  | set v => simp [update_note, hfind, hne, hl, htag]

theorem update_note_ok_of (note_id : Nat) (data : Body) (st : Store) (now : Nat)
    (note : Note) (ed : Option PyDate) (et : Option PyTime)
    (hfind : findNote st note_id = some note) (hne : data.isEmpty = false)
    (hloc : ∀ m, applyStrField data "location" "Location" ≠ .err m)
    (htag : ∀ m, applyStrField data "tags" "Tags" ≠ .err m)
    (hed : eventDateUpdate data note.event_date = .ok ed)
    (het : eventTimeUpdate data note.event_time = .ok et) :
    update_note note_id data st now =
      (.okNote (updatedNote note data now ed et),
       replaceNote st (updatedNote note data now ed et)) := by
  cases hl : applyStrField data "location" "Location" with
  | err m => exact absurd hl (hloc m)
  | unchanged =>
      cases ht : applyStrField data "tags" "Tags" with
      | err m => exact absurd ht (htag m)
      | unchanged => simp [update_note, hfind, hne, hl, ht, hed, het, updatedNote, FieldRes.apply]
      | set v => simp [update_note, hfind, hne, hl, ht, hed, het, updatedNote, FieldRes.apply]
  | set w =>
      cases ht : applyStrField data "tags" "Tags" with
      | err m => exact absurd ht (htag m)
      | unchanged => simp [update_note, hfind, hne, hl, ht, hed, het, updatedNote, FieldRes.apply]
      | set v => simp [update_note, hfind, hne, hl, ht, hed, het, updatedNote, FieldRes.apply]

theorem fieldRes_err_or_not (r : FieldRes) : (∃ m, r = .err m) ∨ (∀ m, r ≠ .err m) := by
  cases r <;> simp

theorem update_note_serverError_date (note_id : Nat) (data : Body) (st : Store) (now : Nat)
    (note : Note) (e : PyEx)
    (hfind : findNote st note_id = some note) (hne : data.isEmpty = false)
    (hloc : ∀ m, applyStrField data "location" "Location" ≠ .err m)
    (htag : ∀ m, applyStrField data "tags" "Tags" ≠ .err m)
    (hed : eventDateUpdate data note.event_date = .error e) :
    update_note note_id data st now = (.serverError, st) := by
  cases hl : applyStrField data "location" "Location" with
  | err m => exact absurd hl (hloc m)
  | unchanged =>
      cases ht : applyStrField data "tags" "Tags" with
      | err m => exact absurd ht (htag m)
      | unchanged => simp [update_note, hfind, hne, hl, ht, hed]
      | set v => simp [update_note, hfind, hne, hl, ht, hed]
  | set w =>
      cases ht : applyStrField data "tags" "Tags" with
      | err m => exact absurd ht (htag m)
      | unchanged => simp [update_note, hfind, hne, hl, ht, hed]
      | set v => simp [update_note, hfind, hne, hl, ht, hed]

theorem update_note_serverError_time (note_id : Nat) (data : Body) (st : Store) (now : Nat)
    (note : Note) (ed : Option PyDate) (e : PyEx)
    (hfind : findNote st note_id = some note) (hne : data.isEmpty = false)
    (hloc : ∀ m, applyStrField data "location" "Location" ≠ .err m)
    (htag : ∀ m, applyStrField data "tags" "Tags" ≠ .err m)
    (hed : eventDateUpdate data note.event_date = .ok ed)
    (het : eventTimeUpdate data note.event_time = .error e) :
    update_note note_id data st now = (.serverError, st) := by
  cases hl : applyStrField data "location" "Location" with
  | err m => exact absurd hl (hloc m)
  | unchanged =>
      cases ht : applyStrField data "tags" "Tags" with
      | err m => exact absurd ht (htag m)
      | unchanged => simp [update_note, hfind, hne, hl, ht, hed, het]
      | set v => simp [update_note, hfind, hne, hl, ht, hed, het]
  | set w =>
      cases ht : applyStrField data "tags" "Tags" with
      | err m => exact absurd ht (htag m)
      | unchanged => simp [update_note, hfind, hne, hl, ht, hed, het]
      | set v => simp [update_note, hfind, hne, hl, ht, hed, het]

theorem update_note_ok_shape (note_id : Nat) (data : Body) (st : Store) (now : Nat)
    (n : Note) (st' : Store)
    (h : update_note note_id data st now = (.okNote n, st')) :
    ∃ note ed et,
      findNote st note_id = some note ∧
      data.isEmpty = false ∧
      (∀ m, applyStrField data "location" "Location" ≠ .err m) ∧
      (∀ m, applyStrField data "tags" "Tags" ≠ .err m) ∧
      eventDateUpdate data note.event_date = .ok ed ∧
      eventTimeUpdate data note.event_time = .ok et ∧
      n = updatedNote note data now ed et ∧
      st' = replaceNote st n := by
  cases hfind : findNote st note_id with
  | none => rw [update_note_not_found note_id data st now hfind] at h; simp at h
  | some note =>
    cases hne : data.isEmpty with
    | true =>
        have hnil : data = [] := List.isEmpty_iff.mp hne
        subst hnil
        rw [update_note_empty_body note_id st now note hfind] at h
        simp at h
    | false =>
      rcases fieldRes_err_or_not (applyStrField data "location" "Location") with ⟨m, hl⟩ | hl
      · rw [update_note_badReq_loc note_id data st now note m hfind hne hl] at h
        simp at h
      · rcases fieldRes_err_or_not (applyStrField data "tags" "Tags") with ⟨m, ht⟩ | ht
        · rw [update_note_badReq_tags note_id data st now note m hfind hne hl ht] at h
          simp at h
        · cases hed : eventDateUpdate data note.event_date with
          | error e =>
              rw [update_note_serverError_date note_id data st now note e hfind hne hl ht hed] at h
              simp at h
          | ok ed =>
            cases het : eventTimeUpdate data note.event_time with
            | error e =>
                rw [update_note_serverError_time note_id data st now note ed e hfind hne hl ht hed het] at h
                simp at h
            | ok et =>
                rw [update_note_ok_of note_id data st now note ed et hfind hne hl ht hed het] at h
                injection h with h1 h2
                injection h1 with h1
                exact ⟨note, ed, et, rfl, rfl, hl, ht, hed, het, h1.symm, by rw [← h2, h1]⟩

theorem create_note_missing (data : Body) (st : Store) (now : Nat)
    (h : data.isEmpty = true ∨ lookupKey data "title" = none ∨ lookupKey data "content" = none) :
    create_note data st now = (.badRequest "Title and content are required", st) := by
  have hc : (data.isEmpty = true) ∨ ((lookupKey data "title").isNone = true) ∨
      ((lookupKey data "content").isNone = true) := by
    rcases h with h | h | h
    · exact Or.inl h
    · exact Or.inr (Or.inl (Option.isNone_iff_eq_none.mpr h))
    · exact Or.inr (Or.inr (Option.isNone_iff_eq_none.mpr h))
  unfold create_note
  rw [if_pos hc]

theorem create_note_ok_of (data : Body) (st : Store) (now : Nat)
    (tv cv : JVal) (ed : Option PyDate) (et : Option PyTime)
    (htit : lookupKey data "title" = some tv) (hcon : lookupKey data "content" = some cv)
    (hloc : ∀ m, applyStrField data "location" "Location" ≠ .err m)
    (htag : ∀ m, applyStrField data "tags" "Tags" ≠ .err m)
    (hed : eventDateCreate data = .ok ed) (het : eventTimeCreate data = .ok et) :
    create_note data st now =
      (.created (createdNote data st now ed et),
       { notes := st.notes ++ [createdNote data st now ed et], nextId := st.nextId + 1 }) := by
  have hg : ¬((data.isEmpty = true) ∨ ((lookupKey data "title").isNone = true) ∨
      ((lookupKey data "content").isNone = true)) := by
    simp [htit, hcon, lookupKey_ne_empty data "title" tv htit]
  unfold create_note
  rw [if_neg hg]
  cases hl : applyStrField data "location" "Location" with
  | err m => exact absurd hl (hloc m)
  | unchanged =>
      cases ht : applyStrField data "tags" "Tags" with
      | err m => exact absurd ht (htag m)
      | unchanged => simp [hl, ht, hed, het, createdNote, FieldRes.apply]
      | set v => simp [hl, ht, hed, het, createdNote, FieldRes.apply]
  | set w =>
      cases ht : applyStrField data "tags" "Tags" with
      | err m => exact absurd ht (htag m)
      | unchanged => simp [hl, ht, hed, het, createdNote, FieldRes.apply]
      | set v => simp [hl, ht, hed, het, createdNote, FieldRes.apply]

theorem create_note_badReq_loc (data : Body) (st : Store) (now : Nat)
    (tv cv : JVal) (m : String)
    (htit : lookupKey data "title" = some tv) (hcon : lookupKey data "content" = some cv)
    (hl : applyStrField data "location" "Location" = .err m) :
    create_note data st now = (.badRequest m, st) := by
  have hg : ¬((data.isEmpty = true) ∨ ((lookupKey data "title").isNone = true) ∨
      ((lookupKey data "content").isNone = true)) := by
    simp [htit, hcon, lookupKey_ne_empty data "title" tv htit]
  unfold create_note
  rw [if_neg hg]
  simp [hl]

theorem create_note_badReq_tags (data : Body) (st : Store) (now : Nat)
    (tv cv : JVal) (m : String)
    (htit : lookupKey data "title" = some tv) (hcon : lookupKey data "content" = some cv)
    (hloc : ∀ m', applyStrField data "location" "Location" ≠ .err m')
    (ht : applyStrField data "tags" "Tags" = .err m) :
    create_note data st now = (.badRequest m, st) := by
  have hg : ¬((data.isEmpty = true) ∨ ((lookupKey data "title").isNone = true) ∨
      ((lookupKey data "content").isNone = true)) := by
    simp [htit, hcon, lookupKey_ne_empty data "title" tv htit]
  unfold create_note
  rw [if_neg hg]
  cases hl : applyStrField data "location" "Location" with
  | err m' => exact absurd hl (hloc m')
  | unchanged => simp [hl, ht]
  | set v => simp [hl, ht]

theorem create_note_serverError_date (data : Body) (st : Store) (now : Nat)
    (tv cv : JVal) (e : PyEx)
    (htit : lookupKey data "title" = some tv) (hcon : lookupKey data "content" = some cv)
    (hloc : ∀ m, applyStrField data "location" "Location" ≠ .err m)
    (htag : ∀ m, applyStrField data "tags" "Tags" ≠ .err m)
    (hed : eventDateCreate data = .error e) :
    create_note data st now = (.serverError, st) := by
  have hg : ¬((data.isEmpty = true) ∨ ((lookupKey data "title").isNone = true) ∨
      ((lookupKey data "content").isNone = true)) := by
    simp [htit, hcon, lookupKey_ne_empty data "title" tv htit]
  unfold create_note
  rw [if_neg hg]
  cases hl : applyStrField data "location" "Location" with
  | err m => exact absurd hl (hloc m)
  | unchanged =>
      cases ht : applyStrField data "tags" "Tags" with
      | err m => exact absurd ht (htag m)
      | unchanged => simp [hl, ht, hed]
      | set v => simp [hl, ht, hed]
  | set w =>
      cases ht : applyStrField data "tags" "Tags" with
      | err m => exact absurd ht (htag m)
      | unchanged => simp [hl, ht, hed]
      | set v => simp [hl, ht, hed]

theorem create_note_serverError_time (data : Body) (st : Store) (now : Nat)
    (tv cv : JVal) (ed : Option PyDate) (e : PyEx)
    (htit : lookupKey data "title" = some tv) (hcon : lookupKey data "content" = some cv)
    (hloc : ∀ m, applyStrField data "location" "Location" ≠ .err m)
    (htag : ∀ m, applyStrField data "tags" "Tags" ≠ .err m)
    (hed : eventDateCreate data = .ok ed) (het : eventTimeCreate data = .error e) :
    create_note data st now = (.serverError, st) := by
  have hg : ¬((data.isEmpty = true) ∨ ((lookupKey data "title").isNone = true) ∨
      ((lookupKey data "content").isNone = true)) := by
    simp [htit, hcon, lookupKey_ne_empty data "title" tv htit]
  unfold create_note
  rw [if_neg hg]
  cases hl : applyStrField data "location" "Location" with
  | err m => exact absurd hl (hloc m)
  | unchanged =>
      cases ht : applyStrField data "tags" "Tags" with
      | err m => exact absurd ht (htag m)
      | unchanged => simp [hl, ht, hed, het]
      | set v => simp [hl, ht, hed, het]
  | set w =>
      cases ht : applyStrField data "tags" "Tags" with
      | err m => exact absurd ht (htag m)
      | unchanged => simp [hl, ht, hed, het]
      | set v => simp [hl, ht, hed, het]

theorem create_note_created_shape (data : Body) (st : Store) (now : Nat)
    (n : Note) (st' : Store)
    (h : create_note data st now = (.created n, st')) :
    ∃ tv cv ed et,
      lookupKey data "title" = some tv ∧
      lookupKey data "content" = some cv ∧
      (∀ m, applyStrField data "location" "Location" ≠ .err m) ∧
      (∀ m, applyStrField data "tags" "Tags" ≠ .err m) ∧
      eventDateCreate data = .ok ed ∧
      eventTimeCreate data = .ok et ∧
      n = createdNote data st now ed et ∧
      st' = { notes := st.notes ++ [n], nextId := st.nextId + 1 } := by
  cases htit : lookupKey data "title" with
  | none =>
      rw [create_note_missing data st now (Or.inr (Or.inl htit))] at h
      simp at h
  | some tv =>
    cases hcon : lookupKey data "content" with
    | none =>
        rw [create_note_missing data st now (Or.inr (Or.inr hcon))] at h
        simp at h
    | some cv =>
      rcases fieldRes_err_or_not (applyStrField data "location" "Location") with ⟨m, hl⟩ | hl
      · rw [create_note_badReq_loc data st now tv cv m htit hcon hl] at h
        simp at h
      · rcases fieldRes_err_or_not (applyStrField data "tags" "Tags") with ⟨m, ht⟩ | ht
        · rw [create_note_badReq_tags data st now tv cv m htit hcon hl ht] at h
          simp at h
        · cases hed : eventDateCreate data with
          | error e =>
              rw [create_note_serverError_date data st now tv cv e htit hcon hl ht hed] at h
              simp at h
          | ok ed =>
            cases het : eventTimeCreate data with
            | error e =>
                rw [create_note_serverError_time data st now tv cv ed e htit hcon hl ht hed het] at h
                simp at h
            | ok et =>
                rw [create_note_ok_of data st now tv cv ed et htit hcon hl ht hed het] at h
                injection h with h1 h2
                injection h1 with h1
                exact ⟨tv, cv, ed, et, rfl, rfl, hl, ht, rfl, rfl, h1.symm, by rw [← h2, h1]⟩

theorem truthy_jstr_of_ne (s : String) (h : s ≠ "") : (JVal.jstr s).truthy = true := by
  cases hs : s.isEmpty with
  | true => exact absurd ((String.isEmpty_iff s).mp hs) h
  | false => simp [JVal.truthy, hs]

theorem insertDesc_perm (n : Note) (l : List Note) : (insertDesc n l).Perm (n :: l) := by
  induction l with
  | nil => simp [insertDesc]
  | cons m ms ih =>
      by_cases h : m.updated_at ≤ n.updated_at
      · simp [insertDesc, h]
      · simp only [insertDesc, if_neg h]
        exact (ih.cons m).trans (List.Perm.swap n m ms)

theorem sortDesc_perm (l : List Note) : (sortDesc l).Perm l := by
  induction l with
  | nil => simp [sortDesc]
  | cons n ns ih => exact (insertDesc_perm n (sortDesc ns)).trans (ih.cons n)

theorem mem_insertDesc (x n : Note) (l : List Note) :
    x ∈ insertDesc n l ↔ x = n ∨ x ∈ l := by
  rw [(insertDesc_perm n l).mem_iff]
  simp

theorem pairwise_insertDesc (n : Note) (l : List Note)
    (h : l.Pairwise (fun a b => b.updated_at ≤ a.updated_at)) :
    (insertDesc n l).Pairwise (fun a b => b.updated_at ≤ a.updated_at) := by
  induction l with
  | nil => simp [insertDesc]
  | cons m ms ih =>
      rcases List.pairwise_cons.mp h with ⟨hm, hms⟩
      by_cases hle : m.updated_at ≤ n.updated_at
      · simp only [insertDesc, if_pos hle]
        refine List.pairwise_cons.mpr ⟨?_, h⟩
        intro b hb
        rcases List.mem_cons.mp hb with rfl | hb
        · exact hle
        · exact le_trans (hm b hb) hle
      · simp only [insertDesc, if_neg hle]
        refine List.pairwise_cons.mpr ⟨?_, ih hms⟩
        intro b hb
        rcases (mem_insertDesc b n ms).mp hb with rfl | hb
        · exact le_of_not_le hle
        · exact hm b hb

theorem sortDesc_pairwise (l : List Note) :
    (sortDesc l).Pairwise (fun a b => b.updated_at ≤ a.updated_at) := by
  induction l with
  | nil => simp [sortDesc]
  | cons n ns ih => exact pairwise_insertDesc n (sortDesc ns) ih

theorem mem_eraseP_id (l : List Note) (i : Nat)
    (hnd : (l.map Note.id).Nodup) (m : Note) :
    m ∈ l.eraseP (fun n => n.id == i) ↔ m ∈ l ∧ m.id ≠ i := by
  induction l with
  | nil => simp
  | cons a t ih =>
      rw [List.map_cons, List.nodup_cons] at hnd
      obtain ⟨ha, ht⟩ := hnd
      by_cases hai : a.id = i
      · rw [List.eraseP_cons_of_pos (by simp [hai])]
        constructor
        · intro hmt
          refine ⟨List.mem_cons_of_mem a hmt, ?_⟩
          intro hmi
          exact ha (by rw [hai, ← hmi]; exact List.mem_map_of_mem Note.id hmt)
        · rintro ⟨hm, hmi⟩
          rcases List.mem_cons.mp hm with rfl | hmt
          · exact absurd hai hmi
          · exact hmt
      · rw [List.eraseP_cons_of_neg (by simp [hai])]
        simp only [List.mem_cons, ih ht]
        constructor
        · rintro (rfl | ⟨hmt, hmi⟩)
          · exact ⟨Or.inl rfl, hai⟩
          · exact ⟨Or.inr hmt, hmi⟩
        · rintro ⟨(rfl | hmt), hmi⟩
          · exact Or.inl rfl
          · exact Or.inr ⟨hmt, hmi⟩

theorem findNote_erase (st : Store) (i : Nat)
    (hnd : (st.notes.map Note.id).Nodup) :
    findNote { st with notes := st.notes.eraseP (fun n => n.id == i) } i = none := by
  show (st.notes.eraseP (fun n => n.id == i)).find? (fun n => n.id == i) = none
  rw [List.find?_eq_none]
  intro m hm
  rw [mem_eraseP_id st.notes i hnd m] at hm
  simp [hm.2]

theorem update_note_badReq_of_bad_field (note_id : Nat) (data : Body) (st : Store)
    (now : Nat) (note : Note) (hfind : findNote st note_id = some note)
    (hbad : (∃ v, lookupKey data "location" = some v ∧ v ≠ .jnull ∧
               ∀ s, v = .jstr s → 200 < s.length)
          ∨ (∃ v, lookupKey data "tags" = some v ∧ v ≠ .jnull ∧
               ∀ s, v = .jstr s → 200 < s.length)) :
    ∃ m, update_note note_id data st now = (.badRequest m, st) := by
  have hne : data.isEmpty = false := by
    rcases hbad with ⟨v, hv, _, _⟩ | ⟨v, hv, _, _⟩ <;> exact lookupKey_ne_empty data _ v hv
  rcases fieldRes_err_or_not (applyStrField data "location" "Location") with ⟨m, hl⟩ | hl
  · exact ⟨m, update_note_badReq_loc note_id data st now note m hfind hne hl⟩
  · rcases hbad with ⟨v, hv, hnull, hbig⟩ | ⟨v, hv, hnull, hbig⟩
    · obtain ⟨m, hm⟩ := applyStrField_err_of_bad data "location" "Location" v hv hnull hbig
      exact absurd hm (hl m)
    · obtain ⟨m, hm⟩ := applyStrField_err_of_bad data "tags" "Tags" v hv hnull hbig
      exact ⟨m, update_note_badReq_tags note_id data st now note m hfind hne hl hm⟩

/-- C5: when the type or length check on `location` or `tags` fails during
an update, the handler returns a 400 validation error immediately and the
store is returned unchanged — no field of the stored note, including a
`title` or `content` supplied in the same request, is mutated. -/
theorem C5_validation_error_no_partial_mutation (note_id : Nat) (data : Body)
    (st : Store) (now : Nat) (note : Note)
    (hfind : findNote st note_id = some note)
    (hbad : (∃ v, lookupKey data "location" = some v ∧ v ≠ .jnull ∧
               ∀ s, v = .jstr s → 200 < s.length)
          ∨ (∃ v, lookupKey data "tags" = some v ∧ v ≠ .jnull ∧
               ∀ s, v = .jstr s → 200 < s.length)) :
    ∃ m, update_note note_id data st now = (.badRequest m, st) :=
  update_note_badReq_of_bad_field note_id data st now note hfind hbad

/-- C5 witness: a concrete update carrying a new title together with a
non-string location is rejected and the store is unchanged. -/
theorem C5_witness :
    ∃ m, update_note 1 [("title", JVal.jstr "T2"), ("location", JVal.jint 7)]
      sampleStore 4 = (.badRequest m, sampleStore) :=
  C5_validation_error_no_partial_mutation 1
    [("title", JVal.jstr "T2"), ("location", JVal.jint 7)] sampleStore 4 sampleNote
    (by decide)
    (Or.inl ⟨JVal.jint 7, by decide, by decide, by intro s hs; simp at hs⟩)

/-- C6: a create request with an empty body or without the `title` key or
without the `content` key is rejected with the 400 validation message and
the store is unchanged — no row is persisted. -/
theorem C6_create_requires_title_and_content (data : Body) (st : Store) (now : Nat)
    (h : data.isEmpty = true ∨ lookupKey data "title" = none ∨
         lookupKey data "content" = none) :
    create_note data st now = (.badRequest "Title and content are required", st) :=
  create_note_missing data st now h

/-- C6 witness: creating with only a content key fails and persists nothing. -/
theorem C6_witness :
    create_note [("content", JVal.jstr "x")] sampleStore 0 =
      (.badRequest "Title and content are required", sampleStore) :=
  C6_create_requires_title_and_content [("content", JVal.jstr "x")] sampleStore 0
    (Or.inr (Or.inl (by decide)))

/-- C8: updating an existing note with a body holding only a string
`title` replaces the title and leaves content, location, tags, event_date
and event_time unchanged (only the `updated_at` timestamp is refreshed);
updating with an empty body is a 400 and changes nothing. -/
theorem C8_update_title_only_frame (note_id : Nat) (st : Store) (now : Nat)
    (note : Note) (s : String)
    (hfind : findNote st note_id = some note) :
    (update_note note_id [("title", JVal.jstr s)] st now =
       (.okNote { note with title := JVal.jstr s, updated_at := now },
        replaceNote st { note with title := JVal.jstr s, updated_at := now })) ∧
    update_note note_id [] st now = (.badRequest "No data provided", st) := by
  refine ⟨?_, update_note_empty_body note_id st now note hfind⟩
  have h := update_note_ok_of note_id [("title", JVal.jstr s)] st now note
      note.event_date note.event_time hfind rfl
      (by intro m hm; simp [applyStrField, lookupKey, List.find?] at hm)
      (by intro m hm; simp [applyStrField, lookupKey, List.find?] at hm)
      (by simp [eventDateUpdate, lookupKey, List.find?])
      (by simp [eventTimeUpdate, lookupKey, List.find?])
  have hnn : updatedNote note [("title", JVal.jstr s)] now note.event_date note.event_time
      = { note with title := JVal.jstr s, updated_at := now } := by
    simp [updatedNote, getOr, lookupKey, applyStrField, FieldRes.apply, List.find?]
  rw [hnn] at h
  exact h

/-- C8 witness: the frame property at a concrete store and title. -/
theorem C8_witness :
    (update_note 1 [("title", JVal.jstr "new")] sampleStore 10 =
       (.okNote { sampleNote with title := JVal.jstr "new", updated_at := 10 },
        replaceNote sampleStore { sampleNote with title := JVal.jstr "new", updated_at := 10 })) ∧
    update_note 1 [] sampleStore 10 = (.badRequest "No data provided", sampleStore) :=
  C8_update_title_only_frame 1 sampleStore 10 sampleNote "new" (by decide)

/-- C10: an update whose body binds `title` (or `content`) to an explicit
null assigns null to that field — `data.get` treats a present null as a
given value, not as an absent key — and the request succeeds rather than
being rejected or keeping the prior value. -/
theorem C10_update_null_title_content (note_id : Nat) (st : Store) (now : Nat)
    (note : Note) (hfind : findNote st note_id = some note) :
    (update_note note_id [("title", JVal.jnull)] st now =
       (.okNote { note with title := JVal.jnull, updated_at := now },
        replaceNote st { note with title := JVal.jnull, updated_at := now })) ∧
    (update_note note_id [("content", JVal.jnull)] st now =
       (.okNote { note with content := JVal.jnull, updated_at := now },
        replaceNote st { note with content := JVal.jnull, updated_at := now })) := by
  constructor
  · have h := update_note_ok_of note_id [("title", JVal.jnull)] st now note
        note.event_date note.event_time hfind rfl
        (by intro m hm; simp [applyStrField, lookupKey, List.find?] at hm)
        (by intro m hm; simp [applyStrField, lookupKey, List.find?] at hm)
        (by simp [eventDateUpdate, lookupKey, List.find?])
        (by simp [eventTimeUpdate, lookupKey, List.find?])
    have hnn : updatedNote note [("title", JVal.jnull)] now note.event_date note.event_time
        = { note with title := JVal.jnull, updated_at := now } := by
      simp [updatedNote, getOr, lookupKey, applyStrField, FieldRes.apply, List.find?]
    rw [hnn] at h
    exact h
  · have h := update_note_ok_of note_id [("content", JVal.jnull)] st now note
        note.event_date note.event_time hfind rfl
        (by intro m hm; simp [applyStrField, lookupKey, List.find?] at hm)
        (by intro m hm; simp [applyStrField, lookupKey, List.find?] at hm)
        (by simp [eventDateUpdate, lookupKey, List.find?])
        (by simp [eventTimeUpdate, lookupKey, List.find?])
    have hnn : updatedNote note [("content", JVal.jnull)] now note.event_date note.event_time
        = { note with content := JVal.jnull, updated_at := now } := by
      simp [updatedNote, getOr, lookupKey, applyStrField, FieldRes.apply, List.find?]
    rw [hnn] at h
    exact h

/-- C10 witness: the null-title and null-content updates at a concrete
store. -/
theorem C10_witness :
    (update_note 1 [("title", JVal.jnull)] sampleStore 10 =
       (.okNote { sampleNote with title := JVal.jnull, updated_at := 10 },
        replaceNote sampleStore { sampleNote with title := JVal.jnull, updated_at := 10 })) ∧
    (update_note 1 [("content", JVal.jnull)] sampleStore 10 =
       (.okNote { sampleNote with content := JVal.jnull, updated_at := 10 },
        replaceNote sampleStore { sampleNote with content := JVal.jnull, updated_at := 10 })) :=
  C10_update_null_title_content 1 sampleStore 10 sampleNote (by decide)

/-- C9: deleting an unknown id is a 404 that leaves the store unchanged;
deleting an existing id returns 204 with no content and removes exactly
the note with that id (under the store invariant that ids are unique), so
a second delete of the same id is a 404. -/
theorem C9_delete_semantics (note_id : Nat) (st : Store)
    (hnd : (st.notes.map Note.id).Nodup) :
    (findNote st note_id = none → delete_note note_id st = (.notFound, st)) ∧
    (∀ note, findNote st note_id = some note →
      delete_note note_id st =
        (.noContent, { st with notes := st.notes.eraseP (fun n => n.id == note_id) }) ∧
      (∀ m, m ∈ st.notes.eraseP (fun n => n.id == note_id) ↔ m ∈ st.notes ∧ m.id ≠ note_id) ∧
      delete_note note_id { st with notes := st.notes.eraseP (fun n => n.id == note_id) } =
        (.notFound, { st with notes := st.notes.eraseP (fun n => n.id == note_id) })) := by
  constructor
  · intro h
    unfold delete_note
    rw [h]
  · intro note hfind
    refine ⟨?_, mem_eraseP_id st.notes note_id hnd, ?_⟩
    · unfold delete_note
      rw [hfind]
    · unfold delete_note
      rw [findNote_erase st note_id hnd]

/-- C9 witness: deleting note 1 from the sample store removes it. -/
theorem C9_witness :
    delete_note 1 sampleStore =
      (.noContent, { sampleStore with notes := sampleStore.notes.eraseP (fun n => n.id == 1) }) := by
  have h := C9_delete_semantics 1 sampleStore (by decide)
  exact (h.2 sampleNote (by decide)).1

/-- C1 counterexample: the claim says no create/update sequence can
persist a note with an empty title, but a single create whose title is the
empty string succeeds with 201 and stores that note — `create_note` checks
only that the keys are present, never that the values are non-empty. -/
theorem C1_counterexample :
    create_note [("title", JVal.jstr ""), ("content", JVal.jstr "x")]
      { notes := [], nextId := 1 } 0 =
      (HRes.created
        { id := 1, title := JVal.jstr "", content := JVal.jstr "x", location := none,
          tags := none, event_date := none, event_time := none,
          created_at := 0, updated_at := 0 },
       { notes := [{ id := 1, title := JVal.jstr "", content := JVal.jstr "x",
                     location := none, tags := none, event_date := none,
                     event_time := none, created_at := 0, updated_at := 0 }],
         nextId := 2 }) := by decide

/-- C1 (amended): the only invariant create enforces on `title` and
`content` is key presence — a successful create stores exactly the values
supplied (which may be empty strings or null) and appends the note to the
store. -/
theorem C1_create_stores_given_values (data : Body) (st : Store) (now : Nat)
    (n : Note) (st' : Store)
    (h : create_note data st now = (.created n, st')) :
    lookupKey data "title" = some n.title ∧
    lookupKey data "content" = some n.content ∧
    st'.notes = st.notes ++ [n] := by
  obtain ⟨tv, cv, ed, et, htit, hcon, hl, ht, hed, het, hn, hst⟩ :=
    create_note_created_shape data st now n st' h
  subst hn
  refine ⟨?_, ?_, by rw [hst]⟩
  · rw [htit]
    simp [createdNote, getOr, htit]
  · rw [hcon]
    simp [createdNote, getOr, hcon]

/-- C1 witness: a concrete successful create, instantiating the amended
theorem. -/
theorem C1_witness :
    lookupKey [("title", JVal.jstr "t"), ("content", JVal.jstr "c")] "title" =
      some (JVal.jstr "t") := by
  have h := C1_create_stores_given_values
      [("title", JVal.jstr "t"), ("content", JVal.jstr "c")] sampleStore 9
      { id := 3, title := JVal.jstr "t", content := JVal.jstr "c", location := none,
        tags := none, event_date := none, event_time := none,
        created_at := 9, updated_at := 9 }
      { notes := sampleStore.notes ++
          [{ id := 3, title := JVal.jstr "t", content := JVal.jstr "c", location := none,
             tags := none, event_date := none, event_time := none,
             created_at := 9, updated_at := 9 }],
        nextId := 4 }
      (by decide)
  exact h.1

/-- C2: tri-state semantics of `location` and `tags` on update — a present
non-null value that is not a string or exceeds 200 characters yields a 400
with the store unchanged; on a successful update, a present string value
replaces the field, a present null clears it, and an absent key leaves the
prior value. -/
theorem C2_update_location_tags_tristate (note_id : Nat) (data : Body) (st : Store)
    (now : Nat) (note : Note) (hfind : findNote st note_id = some note) :
    ((∃ v, lookupKey data "location" = some v ∧ v ≠ .jnull ∧
        (∀ s, v = .jstr s → 200 < s.length)) →
      ∃ m, update_note note_id data st now = (.badRequest m, st)) ∧
    ((∃ v, lookupKey data "tags" = some v ∧ v ≠ .jnull ∧
        (∀ s, v = .jstr s → 200 < s.length)) →
      ∃ m, update_note note_id data st now = (.badRequest m, st)) ∧
    (∀ n st', update_note note_id data st now = (.okNote n, st') →
      (∀ s, lookupKey data "location" = some (.jstr s) → n.location = some s) ∧
      (lookupKey data "location" = some .jnull → n.location = none) ∧
      (lookupKey data "location" = none → n.location = note.location) ∧
      (∀ s, lookupKey data "tags" = some (.jstr s) → n.tags = some s) ∧
      (lookupKey data "tags" = some .jnull → n.tags = none) ∧
      (lookupKey data "tags" = none → n.tags = note.tags)) := by
  refine ⟨fun hb => update_note_badReq_of_bad_field note_id data st now note hfind (Or.inl hb),
          fun hb => update_note_badReq_of_bad_field note_id data st now note hfind (Or.inr hb),
          ?_⟩
  intro n st' h
  obtain ⟨note0, ed, et, hfind0, hne, hl, ht, hed, het, hn, hst⟩ :=
    update_note_ok_shape note_id data st now n st' h
  rw [hfind] at hfind0
  injection hfind0 with hnote0
  subst hnote0
  subst hn
  refine ⟨?_, ?_, ?_, ?_, ?_, ?_⟩
  · intro s hs
    by_cases hlen : 200 < s.length
    · obtain ⟨m, hm⟩ := applyStrField_err_of_bad data "location" "Location" (JVal.jstr s)
        hs (by simp) (by intro s' hs'; injection hs' with he; rw [← he]; exact hlen)
      exact absurd hm (hl m)
    · simp [updatedNote, applyStrField, hs, hlen, FieldRes.apply]
  · intro hs
    simp [updatedNote, applyStrField, hs, FieldRes.apply]
  · intro hs
    simp [updatedNote, applyStrField, hs, FieldRes.apply]
  · intro s hs
    by_cases hlen : 200 < s.length
    · obtain ⟨m, hm⟩ := applyStrField_err_of_bad data "tags" "Tags" (JVal.jstr s)
        hs (by simp) (by intro s' hs'; injection hs' with he; rw [← he]; exact hlen)
      exact absurd hm (ht m)
    · simp [updatedNote, applyStrField, hs, hlen, FieldRes.apply]
  · intro hs
    simp [updatedNote, applyStrField, hs, FieldRes.apply]
  · intro hs
    simp [updatedNote, applyStrField, hs, FieldRes.apply]

/-- C2 witness: a concrete update setting `location` to a string and
`tags` to null. -/
theorem C2_witness :
    ({ sampleNote with location := some "office", tags := none, updated_at := 11 } : Note).location
      = some "office" ∧
    ({ sampleNote with location := some "office", tags := none, updated_at := 11 } : Note).tags
      = none := by
  have h := C2_update_location_tags_tristate 1
      [("location", JVal.jstr "office"), ("tags", JVal.jnull)] sampleStore 11 sampleNote
      (by decide)
  have h3 := h.2.2 { sampleNote with location := some "office", tags := none, updated_at := 11 }
      (replaceNote sampleStore
        { sampleNote with location := some "office", tags := none, updated_at := 11 })
      (by decide)
  exact ⟨h3.1 "office" (by decide), h3.2.2.2.2.1 (by decide)⟩

/-- C3: the time parser tries `%H:%M:%S.%f`, `%H:%M:%S`, `%H:%M` in that
order and returns the first match; "14:30", "14:30:00" and
"14:30:00.123456" all parse to 14:30:00 (plus the fractional part), and a
string matching no pattern, such as "not-a-time", yields no value and no
error. -/
theorem C3_time_parser_order_and_examples :
    (∀ s : String, strptimeTime s =
       match strptimeFmt .hmsf s.data with
       | some t => some t
       | none =>
         match strptimeFmt .hms s.data with
         | some t => some t
         | none => strptimeFmt .hm s.data) ∧
    parse_time_string (.jstr "14:30") = .ok (some ⟨14, 30, 0, 0⟩) ∧
    parse_time_string (.jstr "14:30:00") = .ok (some ⟨14, 30, 0, 0⟩) ∧
    parse_time_string (.jstr "14:30:00.123456") = .ok (some ⟨14, 30, 0, 123456⟩) ∧
    parse_time_string (.jstr "not-a-time") = .ok none ∧
    (∀ s : String, strptimeFmt .hmsf s.data = none → strptimeFmt .hms s.data = none →
       strptimeFmt .hm s.data = none → parse_time_string (.jstr s) = .ok none) := by
  refine ⟨?_, by decide, by decide, by decide, by decide, ?_⟩
  · intro s
    simp only [strptimeTime, time_formats, List.map_cons, List.map_nil]
    cases strptimeFmt TimeFormat.hmsf s.data with
    | some t => rfl
    | none =>
      cases strptimeFmt TimeFormat.hms s.data with
      | some t => rfl
      | none =>
        cases strptimeFmt TimeFormat.hm s.data with
        | some t => rfl
        | none => rfl
  · intro s h1 h2 h3
    by_cases hs : s = ""
    · subst hs
      rfl
    · have hnone : strptimeTime s = none := by
        simp only [strptimeTime, time_formats, List.map_cons, List.map_nil, h1, h2, h3]
        rfl
      simp [parse_time_string, truthy_jstr_of_ne s hs, hnone]

/-- C3 witness: a string rejected by all three patterns parses to no value
without an error. -/
theorem C3_witness : parse_time_string (JVal.jstr "99:99") = .ok none := by
  have h := C3_time_parser_order_and_examples
  exact h.2.2.2.2.2 "99:99" (by decide) (by decide) (by decide)

/-- C4: an update whose `event_date` (or `event_time`) value is a
non-empty string that fails to parse does not fail — the request still
succeeds and the corresponding field keeps its prior value. -/
theorem C4_unparseable_event_strings_ignored (note_id : Nat) (data : Body) (st : Store)
    (now : Nat) (note : Note)
    (hfind : findNote st note_id = some note)
    (hloc : ∀ m, applyStrField data "location" "Location" ≠ .err m)
    (htag : ∀ m, applyStrField data "tags" "Tags" ≠ .err m) :
    (∀ s et, lookupKey data "event_date" = some (.jstr s) → s ≠ "" →
       strptimeDate s = none → eventTimeUpdate data note.event_time = .ok et →
       ∃ n st', update_note note_id data st now = (.okNote n, st') ∧
         n.event_date = note.event_date) ∧
    (∀ s ed, lookupKey data "event_time" = some (.jstr s) → s ≠ "" →
       strptimeTime s = none → eventDateUpdate data note.event_date = .ok ed →
       ∃ n st', update_note note_id data st now = (.okNote n, st') ∧
         n.event_time = note.event_time) := by
  constructor
  · intro s et hs hse hfail het
    have hne : data.isEmpty = false := lookupKey_ne_empty data _ _ hs
    have hed : eventDateUpdate data note.event_date = .ok note.event_date := by
      simp [eventDateUpdate, hs, truthy_jstr_of_ne s hse, hfail]
    exact ⟨_, _,
      update_note_ok_of note_id data st now note note.event_date et hfind hne hloc htag hed het,
      rfl⟩
  · intro s ed hs hse hfail hed
    have hne : data.isEmpty = false := lookupKey_ne_empty data _ _ hs
    have het : eventTimeUpdate data note.event_time = .ok note.event_time := by
      simp [eventTimeUpdate, hs, truthy_jstr_of_ne s hse, parse_time_string, hfail]
    exact ⟨_, _,
      update_note_ok_of note_id data st now note ed note.event_time hfind hne hloc htag hed het,
      rfl⟩

/-- C4 witness: a concrete update with the unparseable date "2024-13-45"
succeeds and keeps the prior event_date. -/
theorem C4_witness :
    ∃ n st', update_note 1 [("event_date", JVal.jstr "2024-13-45")] sampleStore 12 =
      (.okNote n, st') ∧ n.event_date = sampleNote.event_date := by
  have h := C4_unparseable_event_strings_ignored 1
      [("event_date", JVal.jstr "2024-13-45")] sampleStore 12 sampleNote (by decide)
      (by intro m hm; simp [applyStrField, lookupKey, List.find?] at hm)
      (by intro m hm; simp [applyStrField, lookupKey, List.find?] at hm)
  exact h.1 "2024-13-45" sampleNote.event_time (by decide) (by decide) (by decide) (by decide)

/-- C7: searching with an empty query returns the empty list even when
notes exist; searching with a non-empty query returns exactly the notes
whose title or content contains the query as a substring, ordered by
`updated_at` descending. -/
theorem C7_search_empty_and_substring (q : String) (st : Store) (hq : q ≠ "") :
    search_notes "" st = [] ∧
    (search_notes q st).Perm (st.notes.filter (matchesQuery q)) ∧
    (search_notes q st).Pairwise (fun a b => b.updated_at ≤ a.updated_at) := by
  refine ⟨by simp [search_notes], ?_, ?_⟩
  · simp only [search_notes, if_neg hq]
    exact sortDesc_perm _
  · simp only [search_notes, if_neg hq]
    exact sortDesc_pairwise _

/-- C7 witness: the search contract at the sample store for the query
"hello", which occurs in both sample notes. -/
theorem C7_witness :
    search_notes "" sampleStore = [] ∧
    (search_notes "hello" sampleStore).Perm
      (sampleStore.notes.filter (matchesQuery "hello")) ∧
    (search_notes "hello" sampleStore).Pairwise
      (fun a b => b.updated_at ≤ a.updated_at) :=
  C7_search_empty_and_substring "hello" sampleStore (by decide)
